import Mathlib

/-!
Shallow embedding of the Wednesday Addams chatbot (src/main.py):
the mood scheduler, the keyword reply classifier, the per-user memory
store, the game state machines and the plain-message dispatcher.
Randomness is made explicit: every `random.random()` draw that only
gates a branch becomes a `Bool` or a `ℕ` parameter, and every
`random.choice(xs)` pick becomes a `ℕ` index reduced modulo the corpus
length.  Timestamps (`time.time()`, `datetime.now()`) become `ℤ`
parameters measured in whole seconds.
-/

/-- A Python runtime value as it flows through the mood field: either a
`str` or a `list` of `str`.  `random.choices` returns a *list*, so the
distinction is observable (Python `==` between a string and a list is
`False`, and a list is not a valid `dict` key). -/
inductive PyVal where
  | str (s : String)
  | listStr (l : List String)
deriving DecidableEq, Repr

/-- Python `needle in hay` on strings: substring containment. -/
def pyIn (needle hay : String) : Bool :=
  decide (needle.toList <:+: hay.toList)

/-- Python `str.lower()` (ASCII letters, which covers every token the
source compares against). -/
def pyLower (s : String) : String := String.mk (s.data.map Char.toLower)

/-- Python `str.upper()`. -/
def pyUpper (s : String) : String := String.mk (s.data.map Char.toUpper)

/-- Python `str.strip()` with no argument: drop leading and trailing
whitespace. -/
def pyStrip (s : String) : String :=
  String.mk (((s.data.dropWhile Char.isWhitespace).reverse.dropWhile Char.isWhitespace).reverse)

/-- Python `random.choice(l)`: an element of `l`, selected here by the
explicit index `k` taken modulo the length. -/
def pyChoice (l : List String) (k : Nat) : String :=
  l.getD (k % l.length) ""

/-- Python `str.split()` with no argument: split on whitespace runs,
dropping empty pieces. -/
def pySplit (s : String) : List String :=
  ((s.data.splitOnP (fun c => c.isWhitespace)).map String.mk).filter (fun t => t ≠ "")

/-- Python `timedelta.days` of a difference of `diff` whole seconds:
floor division by 86400. -/
def pyDays (diff : ℤ) : ℤ := Int.fdiv diff 86400

-- ===========================================================================
-- PERSONALITY ENGINE (class WednesdayPersonality)
-- ===========================================================================

def MOOD_STATES : List String :=
  ["plotting", "literary", "scientific", "philosophical", "vulnerable"]

/-- The fixed mood weights 0.25 / 0.25 / 0.25 / 0.24 / 0.01, expressed
in hundredths so that the weighted draw is exact over `ℕ`. -/
def MOOD_WEIGHTS : List ℕ := [25, 25, 25, 24, 1]

/-- The element that `random.choices(MOOD_STATES, weights=MOOD_WEIGHTS)`
selects when the underlying uniform draw lands in hundredth `r` of the
unit interval (`r < 100`): cumulative weights 25 / 50 / 75 / 99 / 100. -/
def pickMood (r : ℕ) : String :=
  if r % 100 < 25 then "plotting"
  else if r % 100 < 50 then "literary"
  else if r % 100 < 75 then "scientific"
  else if r % 100 < 99 then "philosophical"
  else "vulnerable"

/-- `random.choices(MOOD_STATES, weights=MOOD_WEIGHTS)` itself: it
returns a one-element *list*, not a string. -/
def choicesMoods (r : ℕ) : PyVal := PyVal.listStr [pickMood r]

/-- The fields `current_mood` / `mood_set_time` of `WednesdayPersonality`. -/
structure MoodState where
  current_mood : PyVal
  mood_set_time : ℤ
deriving DecidableEq, Repr

/-- `WednesdayPersonality.__init__`: draws the initial mood (a list,
per `random.choices`) and stamps the current time. -/
def initPersonality (r : ℕ) (t : ℤ) : MoodState :=
  { current_mood := choicesMoods r, mood_set_time := t }

/-- `WednesdayPersonality.get_mood`: resample if more than 3600 s have
passed since `mood_set_time`, else return the stored value unchanged. -/
def get_mood (st : MoodState) (now : ℤ) (r : ℕ) : MoodState × PyVal :=
  if now - st.mood_set_time > 3600 then
    ({ current_mood := choicesMoods r, mood_set_time := now }, choicesMoods r)
  else
    (st, st.current_mood)

def DARK_FACTS : List String :=
  [ "Did you know rigor mortis makes bodies temporarily stronger than living ones?",
    "The human body contains enough bones to construct an entire skeleton.",
    "Approximately 100 billion humans have died throughout history. I find that number disappointingly finite.",
    "Buried alive was once so common they installed bells in coffins. Most remained silent.",
    "The smell of death is primarily caused by cadaverine and putrescine. Poetic names for an unpoetic process.",
    "Your body produces a cancerous cell approximately every thirty minutes. Natural selection within.",
    "The last sense to fade when dying is hearing. Your final moments of consciousness are spent listening to others.",
    "Forensic entomology can determine time of death by examining maggot development. Larvae are remarkably punctual." ]

def OPENING_LINES : List String :=
  [ "You've interrupted my communion with darkness. Proceed.",
    "I was contemplating the futility of existence. Your message didn't help.",
    "Speak. But know that every word you type brings you closer to the grave. We all are.",
    "I'm currently dissecting the psychological profile of a serial procrastinator. Is that you?",
    "Thing just attempted to strangle me. I'm proud of his initiative. What do you want?" ]

def BORED_RESPONSES : List String :=
  [ "Tedious.",
    "No.",
    "Obviously.",
    "How banal.",
    "I'm experiencing what others might call 'disappointment' but I recognize as my default state.",
    "If boredom could kill, you'd be a mass murderer.",
    "Continue, if you must. I'll be here, dying inside. Which is to say, my normal condition." ]

/-- `/mood` command description table (`mood_descriptions` in
`mood_command`), keyed by the mood *string*. -/
def mood_descriptions : List (String × String) :=
  [ ("plotting", "I'm currently in Plotting Mode. Everything you say will be analyzed for potential use in my elaborate schemes of psychological warfare. Speak carefully."),
    ("literary", "I'm in Literary Mode. I'm working on Chapter 82 of my novel where the protagonist discovers they've been dead the entire time. It's autobiographical."),
    ("scientific", "I'm in Scientific Mode. Every interaction is data. You are data. Specifically, you're a data point labeled 'subject exhibits standard human mediocrity.'"),
    ("philosophical", "I'm in Philosophical Mode. I'm contemplating whether existence itself is a cosmic joke and we're merely the punchline. Current conclusion: yes."),
    ("vulnerable", "I'm in... a state I don't recognize. Thing suggests it might be 'vulnerability.' I've scheduled an exorcism for later.") ]

/-- Association-list lookup with a string key (Python `d[k]` for a dict
with string keys, as an `Option`). -/
def lookupStr (d : List (String × String)) (k : String) : Option String :=
  (d.find? (fun p => p.1 = k)).map (fun p => p.2)

/-- Python `d[k]` where `k` is an arbitrary runtime value: indexing a
string-keyed dict with a list raises `TypeError` (unhashable type),
modelled as `none`. -/
def pyDictGet (d : List (String × String)) (k : PyVal) : Option String :=
  match k with
  | PyVal.str s => lookupStr d s
  | PyVal.listStr _ => none

/-- `mood_command`: reads `get_mood()` and looks the result up in
`mood_descriptions`; `none` models the `TypeError` raised when the key
is not a string. -/
def mood_command (st : MoodState) (now : ℤ) (r : ℕ) : MoodState × Option String :=
  let res := get_mood st now r
  (res.1, (pyDictGet mood_descriptions res.2).map
    (fun d => "**CURRENT MOOD STATE:**\n\n" ++ d))

-- ===========================================================================
-- REPLY CLASSIFIER (WednesdayPersonality.generate_response and handlers)
-- ===========================================================================

def greetingWords : List String :=
  ["hi", "hello", "hey", "good morning", "good evening"]

def cheerfulWords : List String :=
  ["happy", "excited", "love", "amazing", "awesome"]

/-- The dark-topic token set of the reply classifier (line 122). -/
def darkTopicWords : List String :=
  ["death", "murder", "dark", "gothic", "poison", "kill"]

def smallTalkPhrases : List String :=
  ["how are you", "what's up", "wassup"]

def complimentWords : List String :=
  ["beautiful", "pretty", "nice", "kind", "sweet"]

/-- `any(token in message_lower for token in tokens)`. -/
def matchesAny (tokens : List String) (m : String) : Bool :=
  tokens.any (fun t => pyIn t m)

/-- `WednesdayPersonality._handle_greeting`. -/
def handle_greeting (user_name : String) (mood : PyVal) (k : ℕ) : String :=
  let base := pyChoice OPENING_LINES k
  if mood = PyVal.str "plotting" then
    base ++ " I'm in the middle of orchestrating someone's social demise. Care to be a test subject?"
  else if mood = PyVal.str "literary" then
    base ++ " I was writing Chapter 47 of my novel. The protagonist just discovered their entire family has been dead for weeks."
  else if mood = PyVal.str "scientific" then
    base ++ " I'm calculating the optimal angle for a guillotine blade. Efficiency matters, " ++ user_name ++ "."
  else
    base

def cheerfulResponses : List String :=
  [ "Your enthusiasm is exhausting. I can feel my will to live draining away. Fortunately, it was already at critically low levels.",
    "Happiness is simply a chemical imbalance waiting to correct itself. Usually through disappointment.",
    "I'm rating your message on my funeral appropriateness scale. It scores a devastating zero.",
    "Please contain your joy. It's contagious, and I just disinfected my psychological barriers." ]

/-- `WednesdayPersonality._handle_cheerful_message`. -/
def handle_cheerful_message (k : ℕ) : String :=
  pyChoice cheerfulResponses k

def darkTopicResponses : List String :=
  [ "Now you've captured my attention. Elaborate. I'm listening with 73% more focus than usual.",
    "Finally, a topic worthy of discussion. Continue, and try not to disappoint me this time.",
    "Interesting. I'm making note of this in my psychological profile of you. The entry was previously blank.",
    "*leans forward slightly* Go on. This is the most engaged I've been since I discovered a new torture method in a 14th-century manuscript." ]

/-- `WednesdayPersonality._handle_dark_topic` (receives the lower-cased
message). -/
def handle_dark_topic (message : String) (mood : PyVal) (k1 k2 : ℕ) : String :=
  let response := pyChoice darkTopicResponses k1
  let response :=
    if pyIn "death" message then response ++ "\n\n" ++ pyChoice DARK_FACTS k2
    else response
  if mood = PyVal.str "philosophical" then
    response ++ "\n\nDeath is merely the universe's way of correcting an accounting error. We're all temporary glitches in entropy."
  else
    response

def smallTalkResponses : List String :=
  [ "I'm writing a manifesto on the social obligations to engage in meaningless conversation. Spoiler: they're all invalid.",
    "I'm contemplating the heat death of the universe. It's going better than this conversation.",
    "I just buried my fifth hope for humanity this week. It's only Tuesday.",
    "Thing and I were discussing whether human interaction is a form of slow-motion torture. Your message supports our hypothesis." ]

/-- `WednesdayPersonality._handle_small_talk`. -/
def handle_small_talk (mood : PyVal) (k : ℕ) : String :=
  let response := pyChoice smallTalkResponses k
  if mood = PyVal.str "vulnerable" then
    response ++ " Though I suppose your inquiry demonstrates some minimal concern. I'm... less hostile about it than usual."
  else
    response

def complimentResponses : List String :=
  [ "I'm analyzing your compliment for hidden motives. My suspicion levels are at 94%.",
    "Flattery is what people use when they lack genuine thoughts. Are you lacking genuine thoughts?",
    "I don't trust compliments. They're usually preludes to requests or signs of cognitive impairment.",
    "Your kindness is noted and filed under 'Suspicious Behavior.' I'm watching you through the screen right now. Still watching." ]

/-- `WednesdayPersonality._handle_compliment`. -/
def handle_compliment (k : ℕ) : String :=
  pyChoice complimentResponses k

/-- `WednesdayPersonality._default_response`. -/
def default_response (mood : PyVal) (message : String) (k : ℕ) : String :=
  if (pySplit message).length < 5 then
    pyChoice BORED_RESPONSES k
  else if mood = PyVal.str "plotting" then
    "Interesting. I'm incorporating this into my master plan for subtle psychological devastation. You're participant 47."
  else if mood = PyVal.str "literary" then
    "Your message reminds me of a line from Poe: 'All that we see or seem is but a dream within a dream.' Except less poetic and more... pedestrian."
  else if mood = PyVal.str "scientific" then
    "I'm conducting an experiment on human communication patterns. You're the control group. Meaning: unremarkable."
  else if mood = PyVal.str "philosophical" then
    "We're all just temporary arrangements of atoms hurtling through an indifferent universe. Your message doesn't change that. Nothing does."
  else
    "I'm processing your words with approximately 23% of my attention. The rest is dedicated to more worthwhile pursuits. Like watching paint dry. On a corpse."

/-- `WednesdayPersonality.generate_response`: the ordered keyword-rule
dispatch.  The mood read (`self.get_mood()`) is lifted to the `mood`
parameter; `k1` serves the primary `random.choice` of the selected
handler and `k2` the dark-fact append inside the dark-topic handler. -/
def generate_response (message user_name : String) (mood : PyVal) (k1 k2 : ℕ) : String :=
  let message_lower := pyLower message
  if matchesAny greetingWords message_lower then
    handle_greeting user_name mood k1
  else if matchesAny cheerfulWords message_lower then
    handle_cheerful_message k1
  else if matchesAny darkTopicWords message_lower then
    handle_dark_topic message_lower mood k1 k2
  else if matchesAny smallTalkPhrases message_lower then
    handle_small_talk mood k1
  else if matchesAny complimentWords message_lower then
    handle_compliment k1
  else
    default_response mood message k1

-- ===========================================================================
-- USER MEMORY SYSTEM (class UserMemory)
-- ===========================================================================

/-- One entry of `UserMemory.users` (the per-user profile dict). -/
structure UserProfile where
  name : String
  first_contact : ℤ
  message_count : ℕ
  dark_interests : List String
  last_interaction : Option ℤ
  grudges : List String
deriving DecidableEq, Repr

/-- `UserMemory.users`: the map from user id to profile. -/
abbrev UserStore := ℕ → Option UserProfile

def emptyStore : UserStore := fun _ => none

/-- The fixed dark-keyword watch-list scanned by `record_interaction`
(line 240). -/
def dark_keywords : List String :=
  ["death", "murder", "dark", "poison", "gothic", "torture", "cemetery"]

/-- One iteration of the watch-list scan in `record_interaction`:
`if keyword in message_lower and keyword not in dark_interests: append`. -/
def darkStep (message_lower : String) (acc : List String) (keyword : String) : List String :=
  if pyIn keyword message_lower && !(acc.contains keyword) then acc ++ [keyword] else acc

/-- The whole watch-list scan of `record_interaction`. -/
def addDarkInterests (dark_interests : List String) (message_lower : String) : List String :=
  dark_keywords.foldl (darkStep message_lower) dark_interests

/-- The profile stored for `user_id` by `record_interaction`: create a
fresh record on first sight, then increment `message_count`, update
`last_interaction` and scan for dark keywords. -/
def updatedProfile (users : UserStore) (user_id : ℕ) (message username : String)
    (now : ℤ) : UserProfile :=
  let base : UserProfile := match users user_id with
    | none =>
      { name := username, first_contact := now, message_count := 0,
        dark_interests := [], last_interaction := none, grudges := [] }
    | some u => u
  { base with
    message_count := base.message_count + 1,
    last_interaction := some now,
    dark_interests := addDarkInterests base.dark_interests (pyLower message) }

/-- `UserMemory.record_interaction`. -/
def record_interaction (users : UserStore) (user_id : ℕ) (message username : String)
    (now : ℤ) : UserStore :=
  fun v => if v = user_id then some (updatedProfile users user_id message username now) else users v

/-- The `message_count > 10` candidate comment of `get_profile_comment`. -/
def countComment (n : ℕ) : String :=
  "You've contacted me " ++ toString n ++ " times. That level of persistence suggests either dedication or obsession. I'm betting on the latter."

/-- The `dark_interests` candidate comment of `get_profile_comment`
(`', '.join(...)`). -/
def interestsComment (dark_interests : List String) : String :=
  "I've noted your interests in: " ++ String.intercalate ", " dark_interests ++ ". Your psychological profile is becoming... less boring."

/-- The seven-day-absence candidate comment of `get_profile_comment`. -/
def absenceComment (d : ℤ) : String :=
  "You've been absent for " ++ toString d ++ " days. I assumed you were dead. Disappointed to be proven wrong."

/-- The `comments` candidate list built inside `get_profile_comment`:
three independent predicates, appended in source order. -/
def profile_comments (u : UserProfile) (now : ℤ) : List String :=
  (if u.message_count > 10 then [countComment u.message_count] else []) ++
  (if u.dark_interests.isEmpty then [] else [interestsComment u.dark_interests]) ++
  (match u.last_interaction with
   | none => []
   | some t => if pyDays (now - t) > 7 then [absenceComment (pyDays (now - t))] else [])

/-- `UserMemory.get_profile_comment`: a read-only query (the method body
performs no assignment, so the store component of the result is the
input store); `random.choice(comments)` is the pick index `k`. -/
def get_profile_comment (users : UserStore) (user_id : ℕ) (now : ℤ) (k : ℕ) :
    UserStore × Option String :=
  match users user_id with
  | none => (users, none)
  | some u =>
    let comments := profile_comments u now
    (users, if comments.isEmpty then none else some (pyChoice comments k))

/-- A batch of `record_interaction` calls
`(user_id, message, username, now)` applied to the empty store. -/
def runRecords (calls : List (ℕ × String × String × ℤ)) : UserStore :=
  calls.foldl (fun s c => record_interaction s c.1 c.2.1 c.2.2.1 c.2.2.2) emptyStore

-- ===========================================================================
-- GAME MODULES (class WednesdayGames and the conversation handlers)
-- ===========================================================================

/-- Result of a conversation-handler step: the next conversation state,
or `ConversationHandler.END` (the session is removed). -/
inductive ConvResult where
  | toState (s : ℕ)
  | ended
deriving DecidableEq, Repr

def HIDE_BODY_LOCATION : ℕ := 1
def HIDE_BODY_METHOD : ℕ := 2

/-- The four accepted options of the hideBody Location state, with
their canned critiques (the `responses` dict in `hidebody_location`). -/
def hidebodyResponses : List (String × String) :=
  [ ("A", "Backyard burial. Pedestrian but effective. However, cadaver dogs are trained to detect human remains 15 feet underground. We need to go deeper. Or add cayenne pepper to confuse them. Both work."),
    ("B", "Acid dissolution. *nods approvingly* You've been paying attention. Hydrofluoric acid works best. Though I recommend a plastic container‚Äîacid tends to eat through metal. Don't ask how I know."),
    ("C", "Wood chipper. Theatrical but messy. The spray pattern alone would incriminate you. Points for creativity, deductions for practical failure."),
    ("D", "Frame someone else. *slow clap* Now you're thinking like a true sociopath. I'm proud. And concerned. Mostly proud.") ]

/-- The fixed rejection message of the Location state's hard abort. -/
def hidebodyInvalidMsg : String :=
  "Invalid choice. Even hypothetical crimes require following instructions."

/-- `hidebody_location`: upper-case the input; an accepted option gets
its critique plus the evidence prompt and advances to the Method state;
anything else hard-aborts the session with the fixed rejection. -/
def hidebody_location (input : String) : String × ConvResult :=
  let choice := pyUpper input
  match lookupStr hidebodyResponses choice with
  | some response =>
    (response ++ "\n\n**WHAT ABOUT THE EVIDENCE?**\n\nYou've left behind:\n‚Ä¢ Fingerprints\n‚Ä¢ DNA\n‚Ä¢ Digital footprint\n‚Ä¢ Witnesses\n\nHow do you handle this?",
     ConvResult.toState HIDE_BODY_METHOD)
  | none => (hidebodyInvalidMsg, ConvResult.ended)

def hidebodyAssessments : List String :=
  [ "Adequate. You'd likely evade capture for... 6-8 weeks. Then amateur mistakes would surface.",
    "Impressive. I'm updating your file from 'harmless civilian' to 'person of mild interest.'",
    "Catastrophically flawed. You'd be arrested within 48 hours. I'd visit you in prison. Once.",
    "I've seen worse plans. Barely. Consider consulting with more experienced criminals. Like me." ]

/-- `hidebody_method`: free text, one random critique, always ends. -/
def hidebody_method (input : String) (k : ℕ) : String × ConvResult :=
  ("**YOUR PLAN:**\n" ++ input ++ "\n\n**WEDNESDAY'S ASSESSMENT:**\n\n" ++
     pyChoice hidebodyAssessments k ++
     "\n\n**LESSON LEARNED:**\nThe perfect crime exists only in theory. In practice, entropy and human error conspire against all carefully laid plans. Much like life itself.\n\n*Game concluded. Your psychological profile has been updated.*\n\nType /game for more torments.",
   ConvResult.ended)

/-- The fixed poison corpus of `WednesdayGames.poison_game_question`:
(name, symptoms, trivia). -/
def poisons : List (String × String × String) :=
  [ ("Arsenic", "Garlic breath, severe stomach pain, bloody diarrhea, dehydration",
     "Known as \"inheritance powder\" in Renaissance Italy"),
    ("Cyanide", "Bitter almond smell, seizures, loss of consciousness, cherry-red skin",
     "Blocks cellular respiration. Death in minutes"),
    ("Ricin", "Severe vomiting, internal bleeding, organ failure over days",
     "Derived from castor beans. Just 1 milligram is fatal"),
    ("Hemlock", "Ascending paralysis starting from legs, respiratory failure",
     "Killed Socrates. At least he died doing philosophy"),
    ("Strychnine", "Violent muscle spasms, arched back, facial distortion",
     "Victim remains conscious throughout. Quite theatrical") ]

/-- `WednesdayGames.poison_game_question`: draw one specimen and return
(symptoms, answer, trivia) — the fields stored by `poison_game` into
`context.user_data`. -/
def poison_game_question (k : ℕ) : String × String × String :=
  let correct := poisons.getD (k % poisons.length) ("", "", "")
  (correct.2.1, correct.1, correct.2.2)

/-- The reply of `poison_answer` on a correct guess. -/
def poisonCorrectReply (correct_answer trivia : String) : String :=
  "**CORRECT.**\n\n*The faintest flicker of approval crosses Wednesday's face*\n\nThe answer was indeed " ++
    correct_answer ++ ". " ++ trivia ++
    "\n\nYour knowledge of toxicology is... acceptable. I'm adding \"potentially dangerous\" to your profile. Consider it a compliment.\n\nType /poison to try again, or /game for other options."

/-- The reply of `poison_answer` on a wrong guess. -/
def poisonIncorrectReply (correct_answer trivia : String) : String :=
  "**INCORRECT.**\n\nThe answer was " ++ correct_answer ++ ". " ++ trivia ++
    "\n\nYour ignorance could prove fatal. Educate yourself. I recommend starting with \"The Poisoner's Handbook\" by Deborah Blum.\n\nType /poison to redeem yourself, or /game for other failures."

/-- `poison_answer`: strip the input, compare case-insensitively with
the stored canonical name, reply (both variants embed the trivia) and
end the conversation. -/
def poison_answer (correct_answer trivia input : String) : String × ConvResult :=
  let user_answer := pyStrip input
  if pyLower user_answer = pyLower correct_answer then
    (poisonCorrectReply correct_answer trivia, ConvResult.ended)
  else
    (poisonIncorrectReply correct_answer trivia, ConvResult.ended)

/-- The five curse templates of `WednesdayGames.curse_generator`, with
`target` and `reason` spliced in verbatim (Python f-strings). -/
def curse_templates (target reason : String) : List String :=
  [ "May " ++ target ++ "'s coffee always be lukewarm and their Wi-Fi perpetually buffer during crucial moments. " ++ reason ++ " demands no less.",
    "I curse " ++ target ++ " to forever find single socks, never pairs. Their laundry shall know only chaos because " ++ reason ++ ".",
    "Upon " ++ target ++ ", I bestow the curse of eternal autocorrect fails and phantom phone vibrations. " ++ reason ++ " has earned this.",
    "May " ++ target ++ "'s pillow always be warm on both sides, and may they stub their toe weekly. For " ++ reason ++ ", this is fitting.",
    "I hex " ++ target ++ " with the curse of being forever interrupted mid-sentence and having their favorite shows canceled. " ++ reason ++ " justifies this hex." ]

/-- `WednesdayGames.curse_generator`: `random.choice(curse_templates)`. -/
def curse_generator (target reason : String) (k : ℕ) : String :=
  pyChoice (curse_templates target reason) k

-- ===========================================================================
-- DISPATCHER (handle_message, the non-game text path)
-- ===========================================================================

/-- `handle_message`: record the interaction, generate the reply, then
with independent random gates (`random.random() < 0.15`, `< 0.1`,
modelled by `addProfile` / `addFact`) append a profile comment and/or a
dark fact.  Returns the updated store and the outgoing text. -/
def handle_message (users : UserStore) (user_id : ℕ) (first_name message : String)
    (now : ℤ) (mood : PyVal) (k1 k2 : ℕ)
    (addProfile : Bool) (kp : ℕ) (addFact : Bool) (kf : ℕ) : UserStore × String :=
  let users1 := record_interaction users user_id message first_name now
  let response := generate_response message first_name mood k1 k2
  let response :=
    if addProfile then
      match (get_profile_comment users1 user_id now kp).2 with
      | some profile_comment => response ++ "\n\n*" ++ profile_comment ++ "*"
      | none => response
    else response
  let response :=
    if addFact then response ++ "\n\n" ++ pyChoice DARK_FACTS kf
    else response
  (users1, response)

-- ===========================================================================
-- Shared helper lemmas
-- ===========================================================================

/-- `random.choice` picks an element of its (non-empty) corpus. -/
theorem pyChoice_mem (l : List String) (k : ℕ) (h : l ≠ []) : pyChoice l k ∈ l := by
  unfold pyChoice
  have hl : 0 < l.length := List.length_pos.2 h
  have hk : k % l.length < l.length := Nat.mod_lt _ hl
  rw [List.getD_eq_getElem l _ hk]
  exact l.getElem_mem hk

/-- A string that starts with a non-empty string is non-empty. -/
theorem append_ne_empty_left (a b : String) (h : a ≠ "") : a ++ b ≠ "" := by
  intro hc
  apply h
  have h2 : a.data ++ b.data = ([] : List Char) := congrArg String.data hc
  have h3 : a.data = [] := (List.append_eq_nil.1 h2).1
  cases a
  simp_all

/-- A spliced-in string is a substring of the splice result. -/
theorem pyIn_append_middle (a x y : String) : pyIn a (x ++ a ++ y) = true := by
  unfold pyIn
  rw [decide_eq_true_eq]
  refine ⟨x.toList, y.toList, ?_⟩
  simp [String.toList]

-- ===========================================================================
-- Theorem C1
-- ===========================================================================

/-- C1: the claim says `get_mood` returns a single Mood value from the
enumeration {plotting, literary, scientific, philosophical, vulnerable}.
The code stores the raw result of `random.choices`, which is a
one-element *list*; at a concrete first call after process start the
returned value is not an element of the enumeration (neither on the
fresh-state path nor after a resample), and the
`mood_descriptions[current_mood]` lookup performed by `mood_command`
fails (a `TypeError` in Python). -/
theorem get_mood_returns_list_not_mood :
    (get_mood (initPersonality 10 0) 5000 30).2 ∉ MOOD_STATES.map PyVal.str ∧
    (get_mood (initPersonality 10 0) 1000 30).2 ∉ MOOD_STATES.map PyVal.str ∧
    (mood_command (initPersonality 10 0) 5000 30).2 = none := by
  decide

-- ===========================================================================
-- Theorem C2
-- ===========================================================================

/-- C2: `generate_response` evaluates its category rules in the fixed
priority order greeting, cheerful, dark topic, small talk, compliment,
default: the first matching token set alone determines which handler
produces the reply.  In particular a message containing a greeting
token is always answered by the greeting handler, never the dark-topic
handler, whatever other tokens it contains. -/
theorem generate_response_priority :
    ∀ (message user_name : String) (mood : PyVal) (k1 k2 : ℕ),
    (matchesAny greetingWords (pyLower message) = true →
       generate_response message user_name mood k1 k2 = handle_greeting user_name mood k1) ∧
    (matchesAny greetingWords (pyLower message) = false →
     matchesAny cheerfulWords (pyLower message) = true →
       generate_response message user_name mood k1 k2 = handle_cheerful_message k1) ∧
    (matchesAny greetingWords (pyLower message) = false →
     matchesAny cheerfulWords (pyLower message) = false →
     matchesAny darkTopicWords (pyLower message) = true →
       generate_response message user_name mood k1 k2 = handle_dark_topic (pyLower message) mood k1 k2) ∧
    (matchesAny greetingWords (pyLower message) = false →
     matchesAny cheerfulWords (pyLower message) = false →
     matchesAny darkTopicWords (pyLower message) = false →
     matchesAny smallTalkPhrases (pyLower message) = true →
       generate_response message user_name mood k1 k2 = handle_small_talk mood k1) ∧
    (matchesAny greetingWords (pyLower message) = false →
     matchesAny cheerfulWords (pyLower message) = false →
     matchesAny darkTopicWords (pyLower message) = false →
     matchesAny smallTalkPhrases (pyLower message) = false →
     matchesAny complimentWords (pyLower message) = true →
       generate_response message user_name mood k1 k2 = handle_compliment k1) ∧
    (matchesAny greetingWords (pyLower message) = false →
     matchesAny cheerfulWords (pyLower message) = false →
     matchesAny darkTopicWords (pyLower message) = false →
     matchesAny smallTalkPhrases (pyLower message) = false →
     matchesAny complimentWords (pyLower message) = false →
       generate_response message user_name mood k1 k2 = default_response mood message k1) := by
  intro message user_name mood k1 k2
  refine ⟨?_, ?_, ?_, ?_, ?_, ?_⟩ <;> intros <;> simp [generate_response, *]

/-- Witness for C2 at the spec's own example: "hello, tell me about
death" carries both a greeting token and a dark-topic token and is
handled by the greeting handler. -/
theorem generate_response_priority_witness :
    matchesAny greetingWords (pyLower "hello, tell me about death") = true ∧
    matchesAny darkTopicWords (pyLower "hello, tell me about death") = true ∧
    generate_response "hello, tell me about death" "Human" (PyVal.str "plotting") 0 0 =
      handle_greeting "Human" (PyVal.str "plotting") 0 :=
  ⟨by decide, by decide,
   (generate_response_priority "hello, tell me about death" "Human" (PyVal.str "plotting") 0 0).1
     (by decide)⟩

-- ===========================================================================
-- Theorem C5
-- ===========================================================================

/-- C5 counterexample: the claim says the classifier's dark-topic token
set and `record_interaction`'s watch-list are the same set of strings;
but "kill" is a classifier token and not a watch-list keyword (and
"torture" is a watch-list keyword and not a classifier token). -/
theorem dark_sets_counterexample :
    "kill" ∈ darkTopicWords ∧ "kill" ∉ dark_keywords ∧
    "torture" ∈ dark_keywords ∧ "torture" ∉ darkTopicWords := by
  decide

/-- C5 amended: the two fixed dark-keyword sets are not equal; they
share exactly the five keywords death, murder, dark, gothic, poison,
while the classifier set alone has "kill" and the watch-list alone has
"torture" and "cemetery". -/
theorem dark_sets_relation :
    darkTopicWords.filter (fun s => s ∈ dark_keywords) = ["death", "murder", "dark", "gothic", "poison"] ∧
    darkTopicWords.filter (fun s => s ∉ dark_keywords) = ["kill"] ∧
    dark_keywords.filter (fun s => s ∉ darkTopicWords) = ["torture", "cemetery"] := by
  decide

-- ===========================================================================
-- Theorem C6
-- ===========================================================================

/-- C6: in the poison game's answer step, an input whose trimmed text
equals the stored canonical name case-insensitively is judged correct
and every other input is judged incorrect; both replies embed the
stored trivia text, and both outcomes end the conversation. -/
theorem poison_answer_contract :
    ∀ (correct_answer trivia input : String),
    (pyLower (pyStrip input) = pyLower correct_answer →
       poison_answer correct_answer trivia input =
         (poisonCorrectReply correct_answer trivia, ConvResult.ended)) ∧
    (pyLower (pyStrip input) ≠ pyLower correct_answer →
       poison_answer correct_answer trivia input =
         (poisonIncorrectReply correct_answer trivia, ConvResult.ended)) ∧
    pyIn trivia (poisonCorrectReply correct_answer trivia) = true ∧
    pyIn trivia (poisonIncorrectReply correct_answer trivia) = true ∧
    (poison_answer correct_answer trivia input).2 = ConvResult.ended := by
  intro a tr i
  refine ⟨?_, ?_, ?_, ?_, ?_⟩
  · intro h; simp [poison_answer, h]
  · intro h; simp [poison_answer, h]
  · exact pyIn_append_middle tr _ _
  · exact pyIn_append_middle tr _ _
  · by_cases h : pyLower (pyStrip i) = pyLower a <;> simp [poison_answer, h]

/-- Witness for C6: the stored name "Cyanide" against the differently
cased guess " CYANIDE " (correct) and against "Water" (incorrect). -/
theorem poison_answer_contract_witness :
    poison_answer "Cyanide" "Blocks cellular respiration. Death in minutes" " CYANIDE " =
      (poisonCorrectReply "Cyanide" "Blocks cellular respiration. Death in minutes", ConvResult.ended) ∧
    poison_answer "Cyanide" "Blocks cellular respiration. Death in minutes" "Water" =
      (poisonIncorrectReply "Cyanide" "Blocks cellular respiration. Death in minutes", ConvResult.ended) :=
  ⟨(poison_answer_contract "Cyanide" "Blocks cellular respiration. Death in minutes" " CYANIDE ").1
     (by decide),
   (poison_answer_contract "Cyanide" "Blocks cellular respiration. Death in minutes" "Water").2.1
     (by decide)⟩

-- ===========================================================================
-- Theorem C7
-- ===========================================================================

/-- The Location-state lookup misses exactly outside the four options. -/
theorem hidebody_lookup_none (c : String) (h : c ∉ ["A", "B", "C", "D"]) :
    lookupStr hidebodyResponses c = none := by
  simp only [lookupStr, Option.map_eq_none']
  rw [List.find?_eq_none]
  intro x hx
  simp only [hidebodyResponses, List.mem_cons, List.not_mem_nil, or_false] at hx
  simp only [List.mem_cons, List.not_mem_nil, or_false, not_or] at h
  rcases hx with h1 | h1 | h1 | h1 <;> subst h1 <;> simp_all [eq_comm]

/-- C7: in the hideBody game, an input whose upper-casing is outside
{A, B, C, D} hard-aborts the session with the fixed invalid-choice
message; an input inside the set advances to the Method state, and in
the Method state every free-text message gets a non-empty reply and
ends the conversation. -/
theorem hidebody_contract :
    ∀ (input input2 : String) (k : ℕ),
    (pyUpper input ∉ ["A", "B", "C", "D"] →
       hidebody_location input = (hidebodyInvalidMsg, ConvResult.ended)) ∧
    (pyUpper input ∈ ["A", "B", "C", "D"] →
       (hidebody_location input).2 = ConvResult.toState HIDE_BODY_METHOD) ∧
    (hidebody_method input2 k).2 = ConvResult.ended ∧
    (hidebody_method input2 k).1 ≠ "" := by
  intro input input2 k
  refine ⟨?_, ?_, rfl, ?_⟩
  · intro h
    simp [hidebody_location, hidebody_lookup_none _ h]
  · intro h
    simp only [List.mem_cons, List.not_mem_nil, or_false] at h
    rcases h with h | h | h | h <;>
      simp [hidebody_location, h, lookupStr, hidebodyResponses, List.find?]
  · exact append_ne_empty_left _ _ (append_ne_empty_left _ _ (append_ne_empty_left _ _
      (append_ne_empty_left _ _ (by decide))))

/-- Witness for C7: "Z" aborts with the invalid-choice message, "A"
advances to the Method state, and a free-text plan then ends the game. -/
theorem hidebody_contract_witness :
    hidebody_location "Z" = (hidebodyInvalidMsg, ConvResult.ended) ∧
    (hidebody_location "A").2 = ConvResult.toState HIDE_BODY_METHOD ∧
    (hidebody_method "burn everything" 0).2 = ConvResult.ended :=
  ⟨(hidebody_contract "Z" "x" 0).1 (by decide),
   (hidebody_contract "A" "x" 0).2.1 (by decide),
   (hidebody_contract "x" "burn everything" 0).2.2.1⟩

-- ===========================================================================
-- Theorem C8
-- ===========================================================================

/-- C8: for every target and reason, `curse_generator` returns exactly
one of the five fixed templates with the target and the reason spliced
in verbatim (the templates are literal concatenations of the two
argument strings with fixed text). -/
theorem curse_generator_uses_templates :
    ∀ (target reason : String) (k : ℕ),
    curse_generator target reason k ∈ curse_templates target reason := by
  intro t r k
  exact pyChoice_mem _ _ (by simp [curse_templates])

-- ===========================================================================
-- Theorem C3
-- ===========================================================================

/-- A sequence of `get_mood()` calls, each given by (call time, resample
draw), threading the `MoodState` and collecting the returned values. -/
def runCalls (st : MoodState) (calls : List (ℤ × ℕ)) : MoodState × List PyVal :=
  calls.foldl (fun a c => ((get_mood a.1 c.1 c.2).1, a.2 ++ [(get_mood a.1 c.1 c.2).2])) (st, [])

theorem runCalls_aux (calls : List (ℤ × ℕ)) :
    ∀ (st : MoodState) (acc : List PyVal),
    (∀ c ∈ calls, c.1 - st.mood_set_time ≤ 3600) →
    calls.foldl (fun a c => ((get_mood a.1 c.1 c.2).1, a.2 ++ [(get_mood a.1 c.1 c.2).2])) (st, acc) =
      (st, acc ++ List.replicate calls.length st.current_mood) := by
  induction calls with
  | nil => intro st acc _; simp
  | cons c cs ih =>
    intro st acc h
    have hc : c.1 - st.mood_set_time ≤ 3600 := h c (List.mem_cons_self _ _)
    have hstep : get_mood st c.1 c.2 = (st, st.current_mood) := by
      unfold get_mood
      rw [if_neg (not_lt.2 hc)]
    simp only [List.foldl_cons, hstep]
    rw [ih st (acc ++ [st.current_mood]) (fun d hd => h d (List.mem_cons_of_mem _ hd))]
    simp [List.replicate_succ]

/-- C3: while every call happens at most 3600 s after the stored
`mood_set_time`, each `get_mood()` call returns the identical stored
value and leaves the `MoodState` unchanged; the stored mood changes
only through the resample branch taken when a call happens strictly
more than 3600 s after `mood_set_time`, and that branch also resets
`mood_set_time` to the call time. -/
theorem get_mood_temporal :
    ∀ (st : MoodState) (calls : List (ℤ × ℕ)) (now : ℤ) (r : ℕ),
    ((∀ c ∈ calls, c.1 - st.mood_set_time ≤ 3600) →
       runCalls st calls = (st, List.replicate calls.length st.current_mood)) ∧
    (now - st.mood_set_time ≤ 3600 → get_mood st now r = (st, st.current_mood)) ∧
    (now - st.mood_set_time > 3600 →
       get_mood st now r =
         ({ current_mood := choicesMoods r, mood_set_time := now }, choicesMoods r)) := by
  intro st calls now r
  refine ⟨?_, ?_, ?_⟩
  · intro h
    have := runCalls_aux calls st [] h
    simpa [runCalls] using this
  · intro h
    unfold get_mood
    rw [if_neg (not_lt.2 h)]
  · intro h
    unfold get_mood
    rw [if_pos h]

/-- Witness for C3: two in-window calls change nothing and both return
the stored value; an out-of-window call resamples and restamps. -/
theorem get_mood_temporal_witness :
    runCalls (initPersonality 10 0) [(100, 5), (3600, 77)] =
      (initPersonality 10 0, List.replicate 2 (initPersonality 10 0).current_mood) ∧
    get_mood (initPersonality 10 0) 3700 50 =
      ({ current_mood := choicesMoods 50, mood_set_time := 3700 }, choicesMoods 50) :=
  ⟨(get_mood_temporal (initPersonality 10 0) [(100, 5), (3600, 77)] 0 0).1 (by decide),
   (get_mood_temporal (initPersonality 10 0) [] 3700 50).2.2 (by decide)⟩

-- ===========================================================================
-- Theorem C9
-- ===========================================================================

theorem darkStep_of_true {ml : String} {acc : List String} {a : String}
    (h : (pyIn a ml && !(acc.contains a)) = true) : darkStep ml acc a = acc ++ [a] := by
  unfold darkStep
  rw [if_pos h]

theorem darkStep_of_false {ml : String} {acc : List String} {a : String}
    (h : (pyIn a ml && !(acc.contains a)) = false) : darkStep ml acc a = acc := by
  have hn : ¬((pyIn a ml && !(acc.contains a)) = true) := by
    intro hc
    rw [h] at hc
    cases hc
  unfold darkStep
  rw [if_neg hn]

theorem darkFold_extends (ml : String) :
    ∀ (ks acc : List String), ∃ t, ks.foldl (darkStep ml) acc = acc ++ t := by
  intro ks
  induction ks with
  | nil => intro acc; exact ⟨[], by simp⟩
  | cons a tl ih =>
    intro acc
    obtain ⟨t, ht⟩ := ih (darkStep ml acc a)
    cases h : (pyIn a ml && !(acc.contains a)) with
    | true =>
      refine ⟨[a] ++ t, ?_⟩
      simp only [List.foldl_cons]
      rw [ht, darkStep_of_true h]
      simp
    | false =>
      refine ⟨t, ?_⟩
      simp only [List.foldl_cons]
      rw [ht, darkStep_of_false h]

theorem darkFold_mem_mono (ml : String) (ks acc : List String) (x : String)
    (hx : x ∈ acc) : x ∈ ks.foldl (darkStep ml) acc := by
  obtain ⟨t, ht⟩ := darkFold_extends ml ks acc
  rw [ht]
  exact List.mem_append_left _ hx

theorem darkFold_mem (ml : String) :
    ∀ (ks acc : List String) (k : String), k ∈ ks → pyIn k ml = true →
      k ∈ ks.foldl (darkStep ml) acc := by
  intro ks
  induction ks with
  | nil => intro acc k hk; cases hk
  | cons a tl ih =>
    intro acc k hk hin
    simp only [List.foldl_cons]
    rcases List.mem_cons.1 hk with h | h
    · subst h
      apply darkFold_mem_mono
      cases hc : (pyIn k ml && !(acc.contains k)) with
      | true =>
        rw [darkStep_of_true hc]
        simp
      | false =>
        rw [darkStep_of_false hc]
        simp only [hin, Bool.true_and, Bool.not_eq_false'] at hc
        simpa using hc
    · exact ih (darkStep ml acc a) k h hin

theorem darkFold_nodup (ml : String) :
    ∀ (ks acc : List String), acc.Nodup → (ks.foldl (darkStep ml) acc).Nodup := by
  intro ks
  induction ks with
  | nil => intro acc h; simpa
  | cons a tl ih =>
    intro acc h
    simp only [List.foldl_cons]
    apply ih
    cases hc : (pyIn a ml && !(acc.contains a)) with
    | true =>
      rw [darkStep_of_true hc]
      have hna : a ∉ acc := by
        have h2 := ((Bool.and_eq_true _ _).mp hc).2
        simp only [Bool.not_eq_true'] at h2
        simpa using h2
      simp [List.nodup_append, h, hna]
    | false =>
      rw [darkStep_of_false hc]
      exact h

theorem darkFold_stable (ml : String) :
    ∀ (ks acc : List String), (∀ k ∈ ks, pyIn k ml = true → k ∈ acc) →
      ks.foldl (darkStep ml) acc = acc := by
  intro ks
  induction ks with
  | nil => intro acc _; simp
  | cons a tl ih =>
    intro acc h
    have hstep : darkStep ml acc a = acc := by
      cases hp : pyIn a ml with
      | true =>
        have hmem : a ∈ acc := h a (List.mem_cons_self _ _) hp
        have hcont : acc.contains a = true := by simpa using hmem
        exact darkStep_of_false (by rw [hcont]; simp)
      | false =>
        exact darkStep_of_false (by simp [hp])
    simp only [List.foldl_cons, hstep]
    exact ih acc (fun k hk => h k (List.mem_cons_of_mem _ hk))

/-- `record_interaction` stores `updatedProfile` under the given id. -/
theorem record_interaction_lookup (users : UserStore) (uid : ℕ) (m n : String) (t : ℤ) :
    record_interaction users uid m n t uid = some (updatedProfile users uid m n t) := by
  simp [record_interaction]

theorem updatedProfile_di (users : UserStore) (uid : ℕ) (m n : String) (t : ℤ)
    (p : UserProfile) (h : users uid = some p) :
    (updatedProfile users uid m n t).dark_interests =
      addDarkInterests p.dark_interests (pyLower m) := by
  simp [updatedProfile, h]

/-- C9: `record_interaction` deduplicates `dark_interests`: after two
recorded messages that both contain a watch-list keyword, the profile
holds exactly one occurrence of it; the list stays duplicate-free, only
grows by appending newly seen keywords at the end (so earlier keywords
keep their first-occurrence positions), and recording the same message
again leaves it unchanged. -/
theorem record_interaction_dark_dedup :
    ∀ (users : UserStore) (uid : ℕ) (m1 m2 n1 n2 : String) (t1 t2 : ℤ) (kw : String),
    (∀ p, users uid = some p → p.dark_interests.Nodup) →
    kw ∈ dark_keywords →
    pyIn kw (pyLower m1) = true →
    pyIn kw (pyLower m2) = true →
    ∃ p1 p2,
      record_interaction users uid m1 n1 t1 uid = some p1 ∧
      record_interaction (record_interaction users uid m1 n1 t1) uid m2 n2 t2 uid = some p2 ∧
      p2.dark_interests.count kw = 1 ∧
      p1.dark_interests.Nodup ∧ p2.dark_interests.Nodup ∧
      (∃ ext, p2.dark_interests = p1.dark_interests ++ ext) ∧
      (pyLower m1 = pyLower m2 → p2.dark_interests = p1.dark_interests) := by
  intro users uid m1 m2 n1 n2 t1 t2 kw hnd hkw h1 h2
  have hd0 : ∃ d0 : List String, d0.Nodup ∧
      (updatedProfile users uid m1 n1 t1).dark_interests = addDarkInterests d0 (pyLower m1) := by
    cases husers : users uid with
    | none => exact ⟨[], List.nodup_nil, by simp [updatedProfile, husers]⟩
    | some p => exact ⟨p.dark_interests, hnd p husers, by simp [updatedProfile, husers]⟩
  obtain ⟨d0, hd0nodup, hp1di⟩ := hd0
  have hp1 : record_interaction users uid m1 n1 t1 uid = some (updatedProfile users uid m1 n1 t1) :=
    record_interaction_lookup users uid m1 n1 t1
  have hp2 : record_interaction (record_interaction users uid m1 n1 t1) uid m2 n2 t2 uid =
      some (updatedProfile (record_interaction users uid m1 n1 t1) uid m2 n2 t2) :=
    record_interaction_lookup _ uid m2 n2 t2
  have hp2di : (updatedProfile (record_interaction users uid m1 n1 t1) uid m2 n2 t2).dark_interests =
      addDarkInterests (updatedProfile users uid m1 n1 t1).dark_interests (pyLower m2) :=
    updatedProfile_di _ uid m2 n2 t2 _ hp1
  refine ⟨updatedProfile users uid m1 n1 t1,
          updatedProfile (record_interaction users uid m1 n1 t1) uid m2 n2 t2,
          hp1, hp2, ?_, ?_, ?_, ?_, ?_⟩
  · -- exactly one occurrence of kw after the two records
    have hmem1 : kw ∈ addDarkInterests d0 (pyLower m1) :=
      darkFold_mem (pyLower m1) dark_keywords d0 kw hkw h1
    have hmem2 : kw ∈ addDarkInterests (addDarkInterests d0 (pyLower m1)) (pyLower m2) :=
      darkFold_mem_mono (pyLower m2) dark_keywords _ kw hmem1
    have hnodup2 : (addDarkInterests (addDarkInterests d0 (pyLower m1)) (pyLower m2)).Nodup :=
      darkFold_nodup (pyLower m2) dark_keywords _ (darkFold_nodup (pyLower m1) dark_keywords d0 hd0nodup)
    rw [hp2di, hp1di]
    exact List.count_eq_one_of_mem hnodup2 hmem2
  · rw [hp1di]
    exact darkFold_nodup (pyLower m1) dark_keywords d0 hd0nodup
  · rw [hp2di, hp1di]
    exact darkFold_nodup (pyLower m2) dark_keywords _
      (darkFold_nodup (pyLower m1) dark_keywords d0 hd0nodup)
  · rw [hp2di]
    exact darkFold_extends (pyLower m2) dark_keywords _
  · intro heq
    rw [hp2di, hp1di, ← heq]
    exact darkFold_stable (pyLower m1) dark_keywords (addDarkInterests d0 (pyLower m1))
      (fun k hk hp => darkFold_mem (pyLower m1) dark_keywords d0 k hk hp)

/-- Witness for C9: a fresh user sends "murder" twice; the profile ends
with a single "murder" entry. -/
theorem record_interaction_dark_dedup_witness :
    ∃ p1 p2,
      record_interaction emptyStore 1 "tell me about murder" "Bob" 0 1 = some p1 ∧
      record_interaction (record_interaction emptyStore 1 "tell me about murder" "Bob" 0) 1
        "murder fascinates me" "Bob" 10 1 = some p2 ∧
      p2.dark_interests.count "murder" = 1 ∧
      p1.dark_interests.Nodup ∧ p2.dark_interests.Nodup ∧
      (∃ ext, p2.dark_interests = p1.dark_interests ++ ext) ∧
      (pyLower "tell me about murder" = pyLower "murder fascinates me" →
        p2.dark_interests = p1.dark_interests) :=
  record_interaction_dark_dedup emptyStore 1 "tell me about murder" "murder fascinates me"
    "Bob" "Bob" 0 10 "murder" (fun p hp => nomatch hp) (by decide) (by decide) (by decide)

-- ===========================================================================
-- Theorem C10
-- ===========================================================================

theorem runRecords_aux :
    ∀ (calls : List (ℕ × String × String × ℤ)) (s : UserStore) (uid : ℕ),
    s uid = none → (∀ c ∈ calls, c.1 ≠ uid) →
    calls.foldl (fun st c => record_interaction st c.1 c.2.1 c.2.2.1 c.2.2.2) s uid = none := by
  intro calls
  induction calls with
  | nil => intro s uid h _; simpa
  | cons c cs ih =>
    intro s uid h hall
    simp only [List.foldl_cons]
    apply ih
    · have hne : uid ≠ c.1 := (hall c (List.mem_cons_self _ _)).symm
      simp only [record_interaction]
      rw [if_neg hne]
      exact h
    · exact fun d hd => hall d (List.mem_cons_of_mem _ hd)

/-- Every candidate comment built by `get_profile_comment` is a
non-empty string. -/
theorem profile_comments_ne_empty (u : UserProfile) (now : ℤ) :
    ∀ c ∈ profile_comments u now, c ≠ "" := by
  intro c hc
  unfold profile_comments at hc
  rcases List.mem_append.1 hc with h | h
  · rcases List.mem_append.1 h with h1 | h1
    · split at h1
      · rw [List.mem_singleton.1 h1]
        exact append_ne_empty_left _ _ (append_ne_empty_left _ _ (by decide))
      · cases h1
    · split at h1
      · cases h1
      · rw [List.mem_singleton.1 h1]
        exact append_ne_empty_left _ _ (append_ne_empty_left _ _ (by decide))
  · rcases hli : u.last_interaction with _ | t
    · rw [hli] at h
      simp at h
    · rw [hli] at h
      by_cases hd : pyDays (now - t) > 7
      · simp only [hd, if_true] at h
        simp only [List.mem_singleton] at h
        rw [h]
        exact append_ne_empty_left _ _ (append_ne_empty_left _ _ (by decide))
      · simp [hd] at h

/-- C10: `get_profile_comment` never mutates the store; it returns
`none` for a user no `record_interaction` call ever touched; and it
returns a non-empty comment for every stored user whose `message_count`
exceeds 10. -/
theorem get_profile_comment_contract :
    (∀ (users : UserStore) (uid : ℕ) (now : ℤ) (k : ℕ),
       (get_profile_comment users uid now k).1 = users) ∧
    (∀ (calls : List (ℕ × String × String × ℤ)) (uid : ℕ) (now : ℤ) (k : ℕ),
       (∀ c ∈ calls, c.1 ≠ uid) →
       (get_profile_comment (runRecords calls) uid now k).2 = none) ∧
    (∀ (users : UserStore) (uid : ℕ) (now : ℤ) (k : ℕ) (p : UserProfile),
       users uid = some p → p.message_count > 10 →
       ∃ c, (get_profile_comment users uid now k).2 = some c ∧ c ≠ "") := by
  refine ⟨?_, ?_, ?_⟩
  · intro users uid now k
    cases husers : users uid <;> simp [get_profile_comment, husers]
  · intro calls uid now k hall
    have hnone : runRecords calls uid = none := runRecords_aux calls emptyStore uid rfl hall
    simp [get_profile_comment, hnone]
  · intro users uid now k p hp hcount
    have hne : profile_comments p now ≠ [] := by
      unfold profile_comments
      rw [if_pos hcount]
      simp
    refine ⟨pyChoice (profile_comments p now) k, ?_, ?_⟩
    · have hie : (profile_comments p now).isEmpty = false := by
        simpa [List.isEmpty_iff] using hne
      simp [get_profile_comment, hp, hie]
    · exact profile_comments_ne_empty p now _ (pyChoice_mem _ _ hne)

def c10profile : UserProfile :=
  { name := "Eve", first_contact := 0, message_count := 11, dark_interests := [],
    last_interaction := some 0, grudges := [] }

def c10store : UserStore := fun v => if v = 7 then some c10profile else none

/-- Witness for C10 at a store holding one user with 11 messages, and a
record batch that never touches the queried user. -/
theorem get_profile_comment_contract_witness :
    (get_profile_comment c10store 7 100 0).1 = c10store ∧
    (get_profile_comment (runRecords [(2, "hello", "Ann", 0)]) 1 100 0).2 = none ∧
    ∃ c, (get_profile_comment c10store 7 100 0).2 = some c ∧ c ≠ "" :=
  ⟨get_profile_comment_contract.1 c10store 7 100 0,
   get_profile_comment_contract.2.1 [(2, "hello", "Ann", 0)] 1 100 0 (by decide),
   get_profile_comment_contract.2.2 c10store 7 100 0 c10profile rfl (by decide)⟩

-- ===========================================================================
-- Theorem C4
-- ===========================================================================

def c4profile : UserProfile :=
  { name := "Bob", first_contact := 0, message_count := 1, dark_interests := ["murder"],
    last_interaction := some 0, grudges := [] }

def c4store : UserStore := fun v => if v = 1 then some c4profile else none

/-- C4 counterexample: the claim says the profile-comment query inside
`handle_message` sees the profile as it was *before* the current
interaction is recorded.  Concretely: user 1 last wrote at time 0 and
writes again at time 864000 (10 days later).  The store that
`handle_message` hands to `get_profile_comment` is its post-record
store, and the query's answer on it differs from the answer on the
pre-record store — the 10-day absence remark is produced only by the
pre-record state the claim describes, not by the code. -/
theorem handle_message_comment_pre_state_false :
    (get_profile_comment
        (handle_message c4store 1 "Bob" "ok" 864000 (PyVal.str "plotting") 0 0 true 1 false 0).1
        1 864000 1).2 ≠
      (get_profile_comment c4store 1 864000 1).2 := by
  decide

/-- C4 amended: in the non-game dispatch path the profile-comment query
runs on the store *after* `record_interaction`, whose stored
`last_interaction` equals the current time; hence the seven-day-absence
predicate compares `now` with itself and the candidate list never
contains the absence remark — it reduces to the message-count and
dark-interests candidates. -/
theorem handle_message_comment_post_state :
    ∀ (users : UserStore) (uid : ℕ) (fn msg : String) (now : ℤ) (mood : PyVal)
      (k1 k2 : ℕ) (ap : Bool) (kp : ℕ) (af : Bool) (kf : ℕ),
    ∃ u, (handle_message users uid fn msg now mood k1 k2 ap kp af kf).1 uid = some u ∧
      u.last_interaction = some now ∧
      profile_comments u now =
        (if u.message_count > 10 then [countComment u.message_count] else []) ++
        (if u.dark_interests.isEmpty then [] else [interestsComment u.dark_interests]) := by
  intro users uid fn msg now mood k1 k2 ap kp af kf
  refine ⟨updatedProfile users uid msg fn now, ?_, rfl, ?_⟩
  · exact record_interaction_lookup users uid msg fn now
  · unfold profile_comments
    have hli : (updatedProfile users uid msg fn now).last_interaction = some now := rfl
    rw [hli]
    have h0 : pyDays (now - now) = 0 := by
      rw [sub_self]
      rfl
    simp [h0]
    decide
